import Mathlib

/-!
Shallow embedding of the tiered cache-and-fetch orchestrator of
`src/main.py` (a Telegram music bot).

The two in-memory tables `cache` (Delivery Cache: Telegram message/file
handles) and `file_cache` (Local Artifact Cache: on-disk mp3 files with a
TTL) are modelled as functions from content keys (video ids) to optional
entries.  The filesystem is a predicate on paths.  Every call to the
messaging transport and to the external fetch capability (yt-dlp) is an
oracle supplied by an `Env` record, so that success and failure of each
external step can be chosen per theorem.  Persistence (`save_cache` /
`save_file_cache`, which serialize the table to disk) is modelled by
copying the table into a `saved*` field.  Two event logs record the
observable behaviour the spec talks about: `fetched` lists the keys for
which the external download was invoked, `delivered` lists the keys for
which an audio message actually reached the requester.
-/

namespace TMusic

/-- One Delivery Cache entry, as written at `src/main.py:322` and 282:
`file_id` (transport blob handle), `chat_id`/`message_id` (origin
location for `forward_message`), and the title. -/
structure Cached where
  file_id : String
  chat_id : Nat
  message_id : Nat
  title : String
deriving DecidableEq

/-- One Local Artifact Cache entry, as written at `src/main.py:330`:
file path, creation timestamp (seconds, as a rational to mirror Python's
real-valued `datetime.now().timestamp()`), title and duration.
`file_path` is optional because the read path accesses it with
`file_data.get("file_path")`, which may yield `None`. -/
structure FileData where
  file_path : Option String
  timestamp : ℚ
  title : String
  duration : Nat
deriving DecidableEq

/-- The receipt a successful `reply_audio` upload returns: the new
`sent.audio.file_id`, `sent.chat_id` and `sent.message_id`. -/
structure Receipt where
  file_id : String
  chat_id : Nat
  message_id : Nat
deriving DecidableEq

/-- Program state: the two cache tables, their last persisted copies,
the filesystem, and the two observable event logs. -/
structure St where
  cache : String → Option Cached
  file_cache : String → Option FileData
  savedCache : String → Option Cached
  savedFileCache : String → Option FileData
  fs : String → Bool
  fetched : List String
  delivered : List String

/-- Oracle for the external collaborators (Telegram transport and the
yt-dlp fetch capability). -/
structure Env where
  /-- does `bot.forward_message(chat, from_chat_id, message_id)` succeed -/
  forwardOk : Nat → Nat → Bool
  /-- does `msg.reply_audio(audio=file_id)` succeed for this blob handle -/
  sendAudioIdOk : String → Bool
  /-- `msg.reply_audio(audio=open(path))`: receipt on success, `none` on
  open/send failure -/
  sendFile : String → Option Receipt
  /-- `yt_dlp.extract_info(..., download=True)`: title and duration on
  success, `none` when it raises -/
  downloadResult : String → Option (String × Nat)
  /-- whether `temp_<id>.mp3` exists after the download attempt (a failed
  or `ignoreerrors` run may leave no file, or leave an incomplete one) -/
  downloadCreatesFile : String → Bool

/-- Pointwise update of a table. -/
def setTable {α : Type} (f : String → Option α) (k : String) (v : Option α) :
    String → Option α :=
  fun x => if x = k then v else f x

/-- `CACHE_DURATION_HOURS = 1` at `src/main.py:31`. -/
def CACHE_DURATION_HOURS : ℚ := 1

/-- The deterministic temp path `temp_<id>.mp3` used by the yt-dlp
output template and by `download_and_send_track`. -/
def tempPath (vid : String) : String := "temp_" ++ vid ++ ".mp3"

/-- Lines 239-258 of `src/main.py` (the Telegram-cache block of
`send_cached_track`): on a Delivery Cache hit, try `forward_message`;
on failure try `reply_audio` with the cached `file_id`; if both fail,
pop the entry, persist, and fall through (result `false`). -/
def tryTelegramCache (env : Env) (s : St) (vid : String) : Bool × St :=
  match s.cache vid with
  | some cached =>
      if env.forwardOk cached.chat_id cached.message_id then
        (true, { s with delivered := s.delivered ++ [vid] })
      else if env.sendAudioIdOk cached.file_id then
        (true, { s with delivered := s.delivered ++ [vid] })
      else
        let c := setTable s.cache vid none
        (false, { s with cache := c, savedCache := c })
  | none => (false, s)

/-- Lines 261-297 of `src/main.py` (the file-cache block of
`send_cached_track`): on a Local Artifact Cache hit whose file exists,
check the age; if fresh, upload the file and on success refresh the
Delivery Cache entry from the receipt and persist; if expired, pop the
entry and persist.  A missing file, an absent path, an expired entry or
a failed upload all end in `return False`. -/
def tryFileCache (env : Env) (now : ℚ) (s : St) (vid : String) : Bool × St :=
  match s.file_cache vid with
  | some file_data =>
      match file_data.file_path with
      | some fp =>
          if !fp.isEmpty && s.fs fp then
            if (now - file_data.timestamp) / 3600 < CACHE_DURATION_HOURS then
              match env.sendFile fp with
              | some sent =>
                  let c := setTable s.cache vid
                    (some ⟨sent.file_id, sent.chat_id, sent.message_id,
                           file_data.title⟩)
                  (true, { s with cache := c, savedCache := c,
                                  delivered := s.delivered ++ [vid] })
              | none => (false, s)
            else
              let f := setTable s.file_cache vid none
              (false, { s with file_cache := f, savedFileCache := f })
          else (false, s)
      | none => (false, s)
  | none => (false, s)

/-- `send_cached_track` (`src/main.py:236`): Telegram cache first, then
file cache, else `False`. -/
def send_cached_track (env : Env) (now : ℚ) (s : St) (vid : String) :
    Bool × St :=
  match tryTelegramCache env s vid with
  | (true, s1) => (true, s1)
  | (false, s1) => tryFileCache env now s1 vid

/-- Best-effort cleanup at `src/main.py:342-347`: remove `temp_<id>.mp3`
if it exists. -/
def cleanupTemp (s : St) (vid : String) : St :=
  if s.fs (tempPath vid) then
    { s with fs := fun p => if p = tempPath vid then false else s.fs p }
  else s

/-- `download_and_send_track` (`src/main.py:300`): run the yt-dlp
download in an executor, require the output file to exist, upload it,
and only then write both cache tables and persist each.  Any failure
(download error, missing output file, send error) removes the temp file
and re-raises; the Boolean result is `false` exactly when the Python
function raises. -/
def download_and_send_track (env : Env) (now : ℚ) (s : St) (vid : String) :
    Bool × St :=
  let s0 : St :=
    { s with fetched := s.fetched ++ [vid],
             fs := fun p => if p = tempPath vid then env.downloadCreatesFile vid
                            else s.fs p }
  match env.downloadResult vid with
  | none => (false, cleanupTemp s0 vid)
  | some info =>
      if s0.fs (tempPath vid) then
        match env.sendFile (tempPath vid) with
        | some sent =>
            let c := setTable s0.cache vid
              (some ⟨sent.file_id, sent.chat_id, sent.message_id, info.1⟩)
            let f := setTable s0.file_cache vid
              (some ⟨some (tempPath vid), now, info.1, info.2⟩)
            (true, { s0 with cache := c, savedCache := c,
                             file_cache := f, savedFileCache := f,
                             delivered := s0.delivered ++ [vid] })
        | none => (false, cleanupTemp s0 vid)
      else (false, cleanupTemp s0 vid)

/-- `handle_single_video` (`src/main.py:443`): serve from cache if
possible, otherwise fetch and deliver (errors reported to the user,
state still advanced). -/
def handle_single_video (env : Env) (now : ℚ) (s : St) (vid : String) : St :=
  match send_cached_track env now s vid with
  | (true, s1) => s1
  | (false, s1) => (download_and_send_track env now s1 vid).2

/-- `send_cached_playlist_tracks` (`src/main.py:457`): sequentially call
`send_cached_track` on each cached key, discarding its Boolean result
(the `try`/`except` only logs). -/
def send_cached_playlist_tracks (env : Env) (now : ℚ) (s : St)
    (vids : List String) : St :=
  vids.foldl (fun st v => (send_cached_track env now st v).2) s

/-- Accumulator for the batch download loop: program state, the shared
`completed["count"]` counter, and the counter values at which a progress
notification (`status.edit_text`) was attempted.  Its failure is caught
and swallowed, so the attempt itself is the observable event. -/
structure BatchSt where
  st : St
  count : Nat
  notified : List Nat

/-- The body of `download_with_semaphore` (`src/main.py:472-486`): run
`download_and_send_track`; on success increment the shared counter under
the lock and, when the new count is a multiple of 3, attempt the
progress notification (failure swallowed); on failure only log. -/
def batchStep (env : Env) (now : ℚ) (b : BatchSt) (vid : String) : BatchSt :=
  match download_and_send_track env now b.st vid with
  | (true, s1) =>
      let c := b.count + 1
      { st := s1, count := c,
        notified := if c % 3 = 0 then b.notified ++ [c] else b.notified }
  | (false, s1) => { b with st := s1 }

/-- `download_playlist_tracks` (`src/main.py:466`), modelled at one
schedule of the semaphore-gated tasks: the per-task effects on the
counter and the caches are applied in list order (`asyncio` interleaving
only permutes this order; the counter section runs under a lock). -/
def download_playlist_tracks (env : Env) (now : ℚ) (s : St)
    (vids : List String) : BatchSt :=
  vids.foldl (batchStep env now) { st := s, count := 0, notified := [] }

/-- Whether the fetch-and-deliver pipeline for `vid` succeeds under
`env`: the download returns info, the output file exists, and the upload
succeeds.  This depends only on the oracle, not on the state. -/
def fetchSucceeds (env : Env) (vid : String) : Bool :=
  (env.downloadResult vid).isSome && env.downloadCreatesFile vid &&
    (env.sendFile (tempPath vid)).isSome

/-! ### Basic reduction lemmas -/

theorem tryTelegramCache_of_none (env : Env) (s : St) (vid : String)
    (h : s.cache vid = none) : tryTelegramCache env s vid = (false, s) := by
  simp [tryTelegramCache, h]

theorem tryFileCache_of_none (env : Env) (now : ℚ) (s : St) (vid : String)
    (h : s.file_cache vid = none) : tryFileCache env now s vid = (false, s) := by
  simp [tryFileCache, h]

theorem send_cached_track_of_cache_none (env : Env) (now : ℚ) (s : St)
    (vid : String) (h : s.cache vid = none) :
    send_cached_track env now s vid = tryFileCache env now s vid := by
  rw [send_cached_track, tryTelegramCache_of_none env s vid h]

theorem send_cached_track_of_both_none (env : Env) (now : ℚ) (s : St)
    (vid : String) (hc : s.cache vid = none) (hf : s.file_cache vid = none) :
    send_cached_track env now s vid = (false, s) := by
  rw [send_cached_track_of_cache_none env now s vid hc,
      tryFileCache_of_none env now s vid hf]

/-- On an expired-but-present file-cache entry, `tryFileCache` removes
the entry, persists the shrunken table and reports a miss, leaving the
filesystem as it was. -/
theorem tryFileCache_expired (env : Env) (now : ℚ) (s : St) (vid : String)
    (fd : FileData) (fp : String)
    (hf : s.file_cache vid = some fd) (hp : fd.file_path = some fp)
    (hne : fp.isEmpty = false) (hfs : s.fs fp = true)
    (hexp : ¬ (now - fd.timestamp) / 3600 < CACHE_DURATION_HOURS) :
    tryFileCache env now s vid =
      (false, { s with file_cache := setTable s.file_cache vid none,
                       savedFileCache := setTable s.file_cache vid none }) := by
  simp [tryFileCache, hf, hp, hne, hfs, hexp]

/-- On a fresh file-cache hit with a successful upload, `tryFileCache`
delivers and refreshes the Delivery Cache from the receipt. -/
theorem tryFileCache_fresh_hit (env : Env) (now : ℚ) (s : St) (vid : String)
    (fd : FileData) (fp : String) (r : Receipt)
    (hf : s.file_cache vid = some fd) (hp : fd.file_path = some fp)
    (hne : fp.isEmpty = false) (hfs : s.fs fp = true)
    (hfresh : (now - fd.timestamp) / 3600 < CACHE_DURATION_HOURS)
    (hsend : env.sendFile fp = some r) :
    tryFileCache env now s vid =
      (true, { s with
        cache := setTable s.cache vid
          (some ⟨r.file_id, r.chat_id, r.message_id, fd.title⟩),
        savedCache := setTable s.cache vid
          (some ⟨r.file_id, r.chat_id, r.message_id, fd.title⟩),
        delivered := s.delivered ++ [vid] }) := by
  simp [tryFileCache, hf, hp, hne, hfs, hfresh, hsend]

/-! ### Concrete states and oracles used by witnesses and counterexamples -/

/-- Empty program state: both tables empty, empty filesystem, empty logs. -/
def st0 : St :=
  { cache := fun _ => none, file_cache := fun _ => none,
    savedCache := fun _ => none, savedFileCache := fun _ => none,
    fs := fun _ => false, fetched := [], delivered := [] }

/-- Oracle on which every external operation fails. -/
def env0 : Env :=
  { forwardOk := fun _ _ => false, sendAudioIdOk := fun _ => false,
    sendFile := fun _ => none, downloadResult := fun _ => none,
    downloadCreatesFile := fun _ => false }

/-- A concrete Delivery Cache entry. -/
def cEntry : Cached := ⟨"blob1", 7, 9, "song"⟩

/-- State whose Delivery Cache holds `cEntry` for every key. -/
def stCached : St := { st0 with cache := fun _ => some cEntry }

/-! ### C2 -/

/-- C2: on the Telegram-cache path of `send_cached_track`, forward is
attempted first (its success returns `true` with the entry kept); on
forward failure the stored `file_id` is re-sent (success also keeps the
entry unchanged); the entry is evicted and the eviction persisted
exactly when both attempts fail, and in that case the path reports a
miss. -/
theorem c2_try_deliver_chain (env : Env) (s : St) (vid : String) (c : Cached)
    (h : s.cache vid = some c) :
    (env.forwardOk c.chat_id c.message_id = true →
      tryTelegramCache env s vid =
        (true, { s with delivered := s.delivered ++ [vid] })) ∧
    (env.forwardOk c.chat_id c.message_id = false →
      env.sendAudioIdOk c.file_id = true →
      tryTelegramCache env s vid =
        (true, { s with delivered := s.delivered ++ [vid] })) ∧
    ((tryTelegramCache env s vid).2.cache vid = none ↔
      env.forwardOk c.chat_id c.message_id = false ∧
      env.sendAudioIdOk c.file_id = false) ∧
    (env.forwardOk c.chat_id c.message_id = false →
      env.sendAudioIdOk c.file_id = false →
      (tryTelegramCache env s vid).1 = false ∧
      (tryTelegramCache env s vid).2.cache = setTable s.cache vid none ∧
      (tryTelegramCache env s vid).2.savedCache = setTable s.cache vid none) := by
  refine ⟨fun hfw => ?_, fun hfw hid => ?_, ?_, fun hfw hid => ?_⟩
  · simp [tryTelegramCache, h, hfw]
  · simp [tryTelegramCache, h, hfw, hid]
  · cases hfw : env.forwardOk c.chat_id c.message_id with
    | true => simp [tryTelegramCache, h, hfw]
    | false =>
        cases hid : env.sendAudioIdOk c.file_id with
        | true => simp [tryTelegramCache, h, hfw, hid]
        | false => simp [tryTelegramCache, h, hfw, hid, setTable]
  · simp [tryTelegramCache, h, hfw, hid]

/-- Witness for C2: a concrete entry and an oracle on which both the
forward and the blob-handle send fail. -/
theorem c2_try_deliver_chain_witness :
    (env0.forwardOk cEntry.chat_id cEntry.message_id = true →
      tryTelegramCache env0 stCached "a" =
        (true, { stCached with delivered := stCached.delivered ++ ["a"] })) ∧
    (env0.forwardOk cEntry.chat_id cEntry.message_id = false →
      env0.sendAudioIdOk cEntry.file_id = true →
      tryTelegramCache env0 stCached "a" =
        (true, { stCached with delivered := stCached.delivered ++ ["a"] })) ∧
    ((tryTelegramCache env0 stCached "a").2.cache "a" = none ↔
      env0.forwardOk cEntry.chat_id cEntry.message_id = false ∧
      env0.sendAudioIdOk cEntry.file_id = false) ∧
    (env0.forwardOk cEntry.chat_id cEntry.message_id = false →
      env0.sendAudioIdOk cEntry.file_id = false →
      (tryTelegramCache env0 stCached "a").1 = false ∧
      (tryTelegramCache env0 stCached "a").2.cache =
        setTable stCached.cache "a" none ∧
      (tryTelegramCache env0 stCached "a").2.savedCache =
        setTable stCached.cache "a" none) :=
  c2_try_deliver_chain env0 stCached "a" cEntry rfl

/-! ### C3 -/

/-- C3 (amended): when the Local Artifact Cache entry's file no longer
exists, `send_cached_track` reports a miss and leaves the whole state —
in particular the `file_cache` table — unchanged: the entry is NOT
evicted.  (Nothing is raised: the totality of the function mirrors the
`os.path.exists` guard in the source.) -/
theorem c3_missing_file_kept (env : Env) (now : ℚ) (s : St) (vid : String)
    (fd : FileData) (fp : String)
    (hc : s.cache vid = none) (hf : s.file_cache vid = some fd)
    (hp : fd.file_path = some fp) (hfs : s.fs fp = false) :
    send_cached_track env now s vid = (false, s) := by
  rw [send_cached_track_of_cache_none env now s vid hc]
  simp [tryFileCache, hf, hp, hfs]

/-- A Local Artifact Cache entry whose file is missing from the
filesystem. -/
def fdGone : FileData := ⟨some "f.mp3", 0, "song", 11⟩

/-- State holding `fdGone` in the file cache with an empty filesystem. -/
def stGone : St := { st0 with file_cache := fun _ => some fdGone }

/-- Counterexample for C3: with the entry's file missing, the lookup
does report a miss, but the entry is retained in the table — it is not
evicted as the claim states. -/
theorem c3_missing_file_cex :
    (send_cached_track env0 0 stGone "a").1 = false ∧
    (send_cached_track env0 0 stGone "a").2.file_cache "a" = some fdGone := by
  constructor <;> rfl

/-- Witness for C3's amended statement at the same concrete state. -/
theorem c3_missing_file_kept_witness :
    send_cached_track env0 0 stGone "a" = (false, stGone) :=
  c3_missing_file_kept env0 0 stGone "a" fdGone "f.mp3" rfl rfl rfl rfl

/-! ### C4 -/

/-- C4 (amended): an expired-but-present entry is removed from the
table on the read path and the shrunken table is persisted, and the
lookup reports a miss — but the file on disk is NOT deleted (the
filesystem component of the state is unchanged; only the background
sweeper `cleanup_old_files` deletes files). -/
theorem c4_expired_evicted_file_kept (env : Env) (now : ℚ) (s : St)
    (vid : String) (fd : FileData) (fp : String)
    (hc : s.cache vid = none) (hf : s.file_cache vid = some fd)
    (hp : fd.file_path = some fp) (hne : fp.isEmpty = false)
    (hfs : s.fs fp = true)
    (hexp : ¬ (now - fd.timestamp) / 3600 < CACHE_DURATION_HOURS) :
    send_cached_track env now s vid =
      (false, { s with file_cache := setTable s.file_cache vid none,
                       savedFileCache := setTable s.file_cache vid none }) := by
  rw [send_cached_track_of_cache_none env now s vid hc]
  exact tryFileCache_expired env now s vid fd fp hf hp hne hfs hexp

/-- A file-cache entry created at time 0 whose file is present. -/
def fdOld : FileData := ⟨some "g.mp3", 0, "song", 11⟩

/-- State holding `fdOld` with its file on disk. -/
def stOld : St :=
  { st0 with file_cache := fun _ => some fdOld, fs := fun p => p == "g.mp3" }

/-- Counterexample for C4: looked up at `now = 3601 s` (one second past
the 1-hour TTL), the entry is removed from the table and a miss is
reported, but the file is still on disk afterwards — the read path does
not delete it, contrary to the claim. -/
theorem c4_expired_file_left_cex :
    (send_cached_track env0 3601 stOld "a").1 = false ∧
    (send_cached_track env0 3601 stOld "a").2.file_cache "a" = none ∧
    (send_cached_track env0 3601 stOld "a").2.fs "g.mp3" = true := by
  have h := tryFileCache_expired env0 3601 stOld "a" fdOld "g.mp3"
    rfl rfl rfl rfl (by norm_num [fdOld, CACHE_DURATION_HOURS])
  rw [send_cached_track_of_cache_none env0 3601 stOld "a" rfl, h]
  refine ⟨rfl, by simp [setTable], by simp [stOld, st0]⟩

/-- Witness for C4's amended statement at `now = 3601 s`. -/
theorem c4_expired_evicted_file_kept_witness :
    send_cached_track env0 3601 stOld "a" =
      (false, { stOld with
        file_cache := setTable stOld.file_cache "a" none,
        savedFileCache := setTable stOld.file_cache "a" none }) :=
  c4_expired_evicted_file_kept env0 3601 stOld "a" fdOld "g.mp3"
    rfl rfl rfl rfl (by simp [stOld, st0]) (by norm_num [fdOld, CACHE_DURATION_HOURS])

/-! ### C5 -/

/-- C5: a fresh Local Artifact Cache hit that is successfully uploaded
refreshes the Delivery Cache entry for that key with the blob handle
and origin location from the send receipt, and the refreshed table is
persisted. -/
theorem c5_local_hit_backfills_delivery_cache (env : Env) (now : ℚ) (s : St)
    (vid : String) (fd : FileData) (fp : String) (r : Receipt)
    (hc : s.cache vid = none) (hf : s.file_cache vid = some fd)
    (hp : fd.file_path = some fp) (hne : fp.isEmpty = false)
    (hfs : s.fs fp = true)
    (hfresh : (now - fd.timestamp) / 3600 < CACHE_DURATION_HOURS)
    (hsend : env.sendFile fp = some r) :
    (send_cached_track env now s vid).1 = true ∧
    (send_cached_track env now s vid).2.cache vid =
      some ⟨r.file_id, r.chat_id, r.message_id, fd.title⟩ ∧
    (send_cached_track env now s vid).2.savedCache =
      (send_cached_track env now s vid).2.cache := by
  rw [send_cached_track_of_cache_none env now s vid hc,
      tryFileCache_fresh_hit env now s vid fd fp r hf hp hne hfs hfresh hsend]
  exact ⟨rfl, by simp [setTable], rfl⟩

/-- Oracle whose file upload always succeeds with a fixed receipt. -/
def envSend : Env := { env0 with sendFile := fun _ => some ⟨"blob2", 3, 4⟩ }

/-- Witness for C5: `fdOld` looked up at `now = 5 s`, well within the
TTL, with the upload succeeding. -/
theorem c5_local_hit_backfills_delivery_cache_witness :
    (send_cached_track envSend 5 stOld "a").1 = true ∧
    (send_cached_track envSend 5 stOld "a").2.cache "a" =
      some ⟨"blob2", 3, 4, fdOld.title⟩ ∧
    (send_cached_track envSend 5 stOld "a").2.savedCache =
      (send_cached_track envSend 5 stOld "a").2.cache :=
  c5_local_hit_backfills_delivery_cache envSend 5 stOld "a" fdOld "g.mp3"
    ⟨"blob2", 3, 4⟩ rfl rfl rfl rfl (by simp [stOld, st0])
    (by norm_num [fdOld, CACHE_DURATION_HOURS]) rfl

/-! ### The fetch-and-deliver pipeline -/

/-- Success shape of `download_and_send_track`: on a successful
download, an existing output file and a successful upload, both tables
are written and persisted, the temp file is on disk, and the key is
fetched and delivered once. -/
theorem download_and_send_track_success (env : Env) (now : ℚ) (s : St)
    (vid : String) (info : String × Nat) (r : Receipt)
    (hd : env.downloadResult vid = some info)
    (hcf : env.downloadCreatesFile vid = true)
    (hs : env.sendFile (tempPath vid) = some r) :
    download_and_send_track env now s vid =
      (true,
        { cache := setTable s.cache vid
            (some ⟨r.file_id, r.chat_id, r.message_id, info.1⟩),
          file_cache := setTable s.file_cache vid
            (some ⟨some (tempPath vid), now, info.1, info.2⟩),
          savedCache := setTable s.cache vid
            (some ⟨r.file_id, r.chat_id, r.message_id, info.1⟩),
          savedFileCache := setTable s.file_cache vid
            (some ⟨some (tempPath vid), now, info.1, info.2⟩),
          fs := fun p => if p = tempPath vid then true else s.fs p,
          fetched := s.fetched ++ [vid],
          delivered := s.delivered ++ [vid] }) := by
  unfold download_and_send_track
  simp [hd, hcf, hs]

/-- The Boolean outcome of `download_and_send_track` depends only on
the oracle: it succeeds exactly when download, output file and upload
all succeed. -/
theorem download_and_send_track_fst (env : Env) (now : ℚ) (s : St)
    (vid : String) :
    (download_and_send_track env now s vid).1 = fetchSucceeds env vid := by
  unfold download_and_send_track fetchSucceeds
  cases hd : env.downloadResult vid with
  | none => simp [hd]
  | some info =>
      cases hcf : env.downloadCreatesFile vid with
      | false => simp [hd, hcf]
      | true =>
          cases hs : env.sendFile (tempPath vid) with
          | none => simp [hd, hcf, hs]
          | some r => simp [hd, hcf, hs]

/-! ### C10 -/

/-- C10: when any stage of the fetch-and-deliver pipeline fails
(download error, missing output file, or upload failure), the call
reports failure, neither cache table nor either persisted copy is
modified for any key, and the temp file for the key is gone before the
error propagates. -/
theorem c10_failed_fetch_writes_nothing (env : Env) (now : ℚ) (s : St)
    (vid : String) (hfail : fetchSucceeds env vid = false) :
    (download_and_send_track env now s vid).1 = false ∧
    (download_and_send_track env now s vid).2.cache = s.cache ∧
    (download_and_send_track env now s vid).2.file_cache = s.file_cache ∧
    (download_and_send_track env now s vid).2.savedCache = s.savedCache ∧
    (download_and_send_track env now s vid).2.savedFileCache =
      s.savedFileCache ∧
    (download_and_send_track env now s vid).2.fs (tempPath vid) = false := by
  unfold download_and_send_track cleanupTemp
  unfold fetchSucceeds at hfail
  cases hd : env.downloadResult vid with
  | none => cases hcf : env.downloadCreatesFile vid <;> simp [hd, hcf]
  | some info =>
      cases hcf : env.downloadCreatesFile vid with
      | false => simp [hd, hcf]
      | true =>
          cases hs : env.sendFile (tempPath vid) with
          | none => simp [hd, hcf, hs]
          | some r => rw [hd, hcf, hs] at hfail; simp at hfail

/-- Witness for C10: the oracle on which the download itself fails. -/
theorem c10_failed_fetch_writes_nothing_witness :
    (download_and_send_track env0 0 st0 "a").1 = false ∧
    (download_and_send_track env0 0 st0 "a").2.cache = st0.cache ∧
    (download_and_send_track env0 0 st0 "a").2.file_cache = st0.file_cache ∧
    (download_and_send_track env0 0 st0 "a").2.savedCache = st0.savedCache ∧
    (download_and_send_track env0 0 st0 "a").2.savedFileCache =
      st0.savedFileCache ∧
    (download_and_send_track env0 0 st0 "a").2.fs (tempPath "a") = false :=
  c10_failed_fetch_writes_nothing env0 0 st0 "a" rfl

/-! ### C1 -/

/-- C1: for a key absent from both caches, a successful resolve
(`handle_single_video`) populates both caches, and an immediately
subsequent resolve for the same key is satisfied by the Delivery Cache
— the state changes only by one more forward-delivery of the key — and
never invokes the external fetch capability a second time (`fetched`
log unchanged). -/
theorem c1_resolve_idempotent (env : Env) (now now2 : ℚ) (s : St)
    (vid : String) (info : String × Nat) (r : Receipt)
    (hc : s.cache vid = none) (hf : s.file_cache vid = none)
    (hd : env.downloadResult vid = some info)
    (hcf : env.downloadCreatesFile vid = true)
    (hs : env.sendFile (tempPath vid) = some r)
    (hfw : env.forwardOk r.chat_id r.message_id = true) :
    (handle_single_video env now s vid).cache vid =
      some ⟨r.file_id, r.chat_id, r.message_id, info.1⟩ ∧
    (handle_single_video env now s vid).file_cache vid =
      some ⟨some (tempPath vid), now, info.1, info.2⟩ ∧
    send_cached_track env now2 (handle_single_video env now s vid) vid =
      (true, { handle_single_video env now s vid with
               delivered :=
                 (handle_single_video env now s vid).delivered ++ [vid] }) ∧
    (handle_single_video env now2 (handle_single_video env now s vid)
        vid).fetched =
      (handle_single_video env now s vid).fetched := by
  have h1 : handle_single_video env now s vid =
      (download_and_send_track env now s vid).2 := by
    unfold handle_single_video
    rw [send_cached_track_of_both_none env now s vid hc hf]
  rw [h1, download_and_send_track_success env now s vid info r hd hcf hs]
  refine ⟨by simp [setTable], by simp [setTable], ?_, ?_⟩
  · unfold send_cached_track tryTelegramCache
    simp [setTable, hfw]
  · unfold handle_single_video send_cached_track tryTelegramCache
    simp [setTable, hfw]

/-- Oracle on which fetch, upload and forward all succeed. -/
def envUp : Env :=
  { forwardOk := fun _ _ => true, sendAudioIdOk := fun _ => false,
    sendFile := fun _ => some ⟨"blob3", 1, 2⟩,
    downloadResult := fun _ => some ("T", 9),
    downloadCreatesFile := fun _ => true }

/-- Witness for C1: the fully-successful oracle on the empty state. -/
theorem c1_resolve_idempotent_witness :
    (handle_single_video envUp 0 st0 "a").cache "a" =
      some ⟨"blob3", 1, 2, "T"⟩ ∧
    (handle_single_video envUp 0 st0 "a").file_cache "a" =
      some ⟨some (tempPath "a"), 0, "T", 9⟩ ∧
    send_cached_track envUp 0 (handle_single_video envUp 0 st0 "a") "a" =
      (true, { handle_single_video envUp 0 st0 "a" with
               delivered :=
                 (handle_single_video envUp 0 st0 "a").delivered ++ ["a"] }) ∧
    (handle_single_video envUp 0 (handle_single_video envUp 0 st0 "a")
        "a").fetched =
      (handle_single_video envUp 0 st0 "a").fetched :=
  c1_resolve_idempotent envUp 0 0 st0 "a" ("T", 9) ⟨"blob3", 1, 2⟩
    rfl rfl rfl rfl rfl rfl

/-! ### C6 -/

/-- Counterexample for C6: a key in the Delivery Cache whose forward
and blob-handle sends both fail and which has no Local Artifact Cache
entry.  After the cached-subset pass of the batch, the external fetch
was never invoked and the key was never delivered: the key is silently
dropped, not recursed into a one-off resolve. -/
theorem c6_cached_batch_dropped_cex :
    (send_cached_playlist_tracks env0 0 stCached ["a"]).fetched = [] ∧
    (send_cached_playlist_tracks env0 0 stCached ["a"]).delivered = [] ∧
    (send_cached_playlist_tracks env0 0 stCached ["a"]).cache "a" = none :=
  ⟨rfl, rfl, rfl⟩

/-- C6 (amended): when a key of the cached subset fails both reuse
paths, `send_cached_playlist_tracks` ignores the miss: no fetch is
dispatched and nothing is delivered for that key. -/
theorem c6_cached_batch_miss_dropped (env : Env) (now : ℚ) (s : St)
    (vid : String) (c : Cached)
    (hcache : s.cache vid = some c)
    (hfw : env.forwardOk c.chat_id c.message_id = false)
    (hid : env.sendAudioIdOk c.file_id = false)
    (hfc : s.file_cache vid = none) :
    (send_cached_playlist_tracks env now s [vid]).fetched = s.fetched ∧
    (send_cached_playlist_tracks env now s [vid]).delivered = s.delivered := by
  unfold send_cached_playlist_tracks
  simp [send_cached_track, tryTelegramCache, tryFileCache, hcache, hfw, hid,
        hfc, setTable]

/-- Witness for C6's amended statement at the concrete dropped key. -/
theorem c6_cached_batch_miss_dropped_witness :
    (send_cached_playlist_tracks env0 0 stCached ["b"]).fetched =
      stCached.fetched ∧
    (send_cached_playlist_tracks env0 0 stCached ["b"]).delivered =
      stCached.delivered :=
  c6_cached_batch_miss_dropped env0 0 stCached "b" cEntry rfl rfl rfl rfl

/-! ### C7 -/

/-- The counter values in `1..n` at which the every-3rd progress notice
fires. -/
def multiples3 (n : Nat) : List Nat :=
  ((List.range n).map (· + 1)).filter (fun c => decide (c % 3 = 0))

theorem multiples3_zero : multiples3 0 = [] := by
  simp [multiples3]

theorem multiples3_succ (n : Nat) :
    multiples3 (n + 1) =
      multiples3 n ++ (if (n + 1) % 3 = 0 then [n + 1] else []) := by
  unfold multiples3
  rw [List.range_succ]
  simp only [List.map_append, List.filter_append, List.map_cons,
    List.map_nil, List.filter_cons, List.filter_nil]
  split <;> simp_all

/-- Invariant of the batch fold: the counter counts exactly the
successful resolutions, and the notification attempts are exactly the
multiples of 3 reached by the counter. -/
theorem batch_foldl_spec (env : Env) (now : ℚ) (vids : List String) :
    ∀ b : BatchSt, b.notified = multiples3 b.count →
      (vids.foldl (batchStep env now) b).count =
        b.count + vids.countP (fetchSucceeds env) ∧
      (vids.foldl (batchStep env now) b).notified =
        multiples3 ((vids.foldl (batchStep env now) b).count) := by
  induction vids with
  | nil => intro b hb; simpa using hb
  | cons v vids ih =>
      intro b hb
      have hfst := download_and_send_track_fst env now b.st v
      have hstep : (batchStep env now b v).notified =
          multiples3 (batchStep env now b v).count ∧
          (batchStep env now b v).count =
            b.count + (if fetchSucceeds env v then 1 else 0) := by
        unfold batchStep
        cases hev : download_and_send_track env now b.st v with
        | mk ok s1 =>
            rw [hev] at hfst
            cases ok with
            | true =>
                have hok : fetchSucceeds env v = true := by
                  simpa using hfst.symm
                refine ⟨?_, by simp [hok]⟩
                show (if (b.count + 1) % 3 = 0
                      then b.notified ++ [b.count + 1] else b.notified) =
                    multiples3 (b.count + 1)
                rw [hb, multiples3_succ]
                split <;> simp
            | false =>
                have hok : fetchSucceeds env v = false := by
                  simpa using hfst.symm
                exact ⟨hb, by simp [hok]⟩
      obtain ⟨hn, hc⟩ := hstep
      obtain ⟨ih1, ih2⟩ := ih (batchStep env now b v) hn
      rw [List.foldl_cons, List.countP_cons]
      refine ⟨?_, ih2⟩
      rw [ih1, hc]
      cases hsv : fetchSucceeds env v
      · simp [hsv]
      · simp [hsv]; omega

/-- Counterexample for C7: a single track whose resolution completes in
failure; the shared counter is still 0 afterwards, so failed
completions do not increment it as the claim states. -/
theorem c7_failed_completion_uncounted_cex :
    (download_and_send_track env0 0 st0 "a").1 = false ∧
    (download_playlist_tracks env0 0 st0 ["a"]).count = 0 :=
  ⟨rfl, rfl⟩

/-- C7 (amended): over the whole batch, the shared counter counts
exactly the successful resolutions (a failed resolution is caught
before the increment), and the best-effort progress notification
(whose own failure is swallowed) is attempted exactly at every 3rd
successful completion. -/
theorem c7_counter_counts_successes (env : Env) (now : ℚ) (s : St)
    (vids : List String) :
    (download_playlist_tracks env now s vids).count =
      vids.countP (fetchSucceeds env) ∧
    (download_playlist_tracks env now s vids).notified =
      multiples3 (vids.countP (fetchSucceeds env)) := by
  unfold download_playlist_tracks
  obtain ⟨h1, h2⟩ :=
    batch_foldl_spec env now vids ⟨s, 0, []⟩ multiples3_zero.symm
  exact ⟨by simpa using h1, by rw [h2]; rw [show
    (vids.foldl (batchStep env now) ⟨s, 0, []⟩).count =
      vids.countP (fetchSucceeds env) from by simpa using h1]⟩

/-! ### C8 -/

/-- C8: with the file present, an entry created `TTL + 1 s` ago is a
miss — expired and evicted from the table — while an entry created
`TTL - 1 s` ago is a hit (delivered, given a working upload), where
`TTL = CACHE_DURATION_HOURS` hours. -/
theorem c8_ttl_boundary (env : Env) (now : ℚ) (sm sh : St) (vid : String)
    (fdm fdh : FileData) (fpm fph : String) (r : Receipt)
    (hcm : sm.cache vid = none) (hfm : sm.file_cache vid = some fdm)
    (hpm : fdm.file_path = some fpm) (hnem : fpm.isEmpty = false)
    (hfsm : sm.fs fpm = true)
    (htm : fdm.timestamp = now - (CACHE_DURATION_HOURS * 3600 + 1))
    (hch : sh.cache vid = none) (hfh : sh.file_cache vid = some fdh)
    (hph : fdh.file_path = some fph) (hneh : fph.isEmpty = false)
    (hfsh : sh.fs fph = true)
    (hth : fdh.timestamp = now - (CACHE_DURATION_HOURS * 3600 - 1))
    (hsend : env.sendFile fph = some r) :
    ((send_cached_track env now sm vid).1 = false ∧
     (send_cached_track env now sm vid).2.file_cache vid = none) ∧
    (send_cached_track env now sh vid).1 = true := by
  have hexp : ¬ (now - fdm.timestamp) / 3600 < CACHE_DURATION_HOURS := by
    rw [htm, CACHE_DURATION_HOURS]; ring_nf; norm_num
  have hfresh : (now - fdh.timestamp) / 3600 < CACHE_DURATION_HOURS := by
    rw [hth, CACHE_DURATION_HOURS]; ring_nf; norm_num
  constructor
  · rw [send_cached_track_of_cache_none env now sm vid hcm,
        tryFileCache_expired env now sm vid fdm fpm hfm hpm hnem hfsm hexp]
    exact ⟨rfl, by simp [setTable]⟩
  · rw [send_cached_track_of_cache_none env now sh vid hch,
        tryFileCache_fresh_hit env now sh vid fdh fph r hfh hph hneh hfsh
          hfresh hsend]

/-- A file-cache entry created one second before the TTL cutoff of a
lookup at `now = 3600 s`. -/
def fdJustOld : FileData := ⟨some "g.mp3", -1, "song", 11⟩

/-- A file-cache entry created one second after that cutoff. -/
def fdJustNew : FileData := ⟨some "g.mp3", 1, "song", 11⟩

/-- State holding `fdJustOld` with its file on disk. -/
def stJustOld : St :=
  { st0 with file_cache := fun _ => some fdJustOld,
             fs := fun p => p == "g.mp3" }

/-- State holding `fdJustNew` with its file on disk. -/
def stJustNew : St :=
  { st0 with file_cache := fun _ => some fdJustNew,
             fs := fun p => p == "g.mp3" }

/-- Witness for C8 at `now = 3600 s`: creation time `-1 s` (age
`TTL + 1 s`) misses and is evicted; creation time `1 s` (age
`TTL - 1 s`) hits. -/
theorem c8_ttl_boundary_witness :
    ((send_cached_track envSend 3600 stJustOld "a").1 = false ∧
     (send_cached_track envSend 3600 stJustOld "a").2.file_cache "a" =
       none) ∧
    (send_cached_track envSend 3600 stJustNew "a").1 = true :=
  c8_ttl_boundary envSend 3600 stJustOld stJustNew "a" fdJustOld fdJustNew
    "g.mp3" "g.mp3" ⟨"blob2", 3, 4⟩ rfl rfl rfl rfl rfl
    (by norm_num [fdJustOld, CACHE_DURATION_HOURS]) rfl rfl rfl rfl rfl
    (by norm_num [fdJustNew, CACHE_DURATION_HOURS]) rfl

end TMusic
